import Mathlib

/-!
# adequatehexagon: `ah-main.c`

A shallow embedding of `ah-main.c`.  The C program keeps its state in file-scope
variables and talks to three outside parties: the OpenGL driver, the GLUT
toolkit and the error stream.  Here

* the file-scope variables and the outside parties' observable state form the
  record `World`;
* everything the outside decides (which files exist, whether a shader compiles,
  whether the program links, which locations are resolved) is read from a
  `Driver` record;
* every C function is a function on `World`, keeping its C name.
-/

namespace AdequateHexagon

/-! ## Scalar types -/

abbrev GLuint := Nat

abbrev GLint := Int

abbrev GLsizei := Nat

/-- Modulus of `unsigned int`. -/
def UINT_MODULUS : Nat := 2 ^ 32

/-- Largest `int`. -/
def INT_MAX : Int := 2 ^ 31 - 1

/-- A value of C type `GLfloat`.  Constants written in the source are kept as
the exact rational value of their initialiser; the one computed value of the
program, `sinf((float)milliseconds * 0.001f) * 0.5f + 0.5f`, is kept symbolically
by the clock reading it was computed from. -/
inductive GLfloat where
  | const (q : ℚ)
  | fade (milliseconds : Int)
  deriving DecidableEq

/-- The OpenGL enumerants the program passes. -/
inductive GLenum where
  | GL_ARRAY_BUFFER
  | GL_ELEMENT_ARRAY_BUFFER
  | GL_STATIC_DRAW
  | GL_VERTEX_SHADER
  | GL_FRAGMENT_SHADER
  | GL_TRIANGLE_FAN
  | GL_UNSIGNED_SHORT
  | GL_FLOAT
  | GL_COLOR_BUFFER_BIT
  | GL_TEXTURE0
  | GL_COMPILE_STATUS
  | GL_LINK_STATUS
  | GL_INFO_LOG_LENGTH
  deriving DecidableEq

/-- Value of `sizeof(GLfloat)`. -/
def sizeof_GLfloat : Nat := 4

/-- Value of `sizeof(GLushort)`. -/
def sizeof_GLushort : Nat := 2

/-- A block of client memory handed to `glBufferData`: an array of `GLfloat`
or an array of `GLushort`. -/
inductive ClientArray where
  | floats (xs : List GLfloat)
  | ushorts (xs : List Nat)
  deriving DecidableEq

/-- The leading `size` bytes of a client array, as whole elements. -/
def ClientArray.takeBytes (size : Nat) : ClientArray → ClientArray
  | .floats xs => .floats (xs.take (size / sizeof_GLfloat))
  | .ushorts xs => .ushorts (xs.take (size / sizeof_GLushort))

/-! ## The outside world -/

/-- What the environment decides.  Shader and program results are functions of
the source texts involved. -/
structure Driver where
  /-- Value of `GLEW_VERSION_2_0` after `glewInit`. -/
  GLEW_VERSION_2_0 : Bool
  /-- Function `file_contents` of `ah-util.h`: the text of a file, or null. -/
  file_contents : String → Option String
  /-- Result of `GL_COMPILE_STATUS` after compiling a text as a given stage. -/
  compile_status : GLenum → String → Bool
  /-- Text returned by `glGetShaderInfoLog`. -/
  shader_info_log : GLenum → String → List Char
  /-- Result of `GL_LINK_STATUS` after linking the attached stages. -/
  link_status : List (GLenum × String) → Bool
  /-- Text returned by `glGetProgramInfoLog`. -/
  program_info_log : List (GLenum × String) → List Char
  /-- Result of `glGetUniformLocation` on a linked program. -/
  uniform_location : List (GLenum × String) → String → GLint
  /-- Result of `glGetAttribLocation` on a linked program. -/
  attrib_location : List (GLenum × String) → String → GLint
  /-- Value of `GL_MAX_VERTEX_ATTRIBS` in the context the window gets. -/
  max_vertex_attribs : Nat

/-- A shader object of the driver. -/
structure ShaderObject where
  kind : GLenum
  source : String
  compiled : Bool
  deriving DecidableEq

/-- A program object of the driver. -/
structure ProgramObject where
  attached : List GLuint
  stages : List (GLenum × String)
  linked : Bool
  deriving DecidableEq

/-- A vertex attribute array declaration: component count, component type,
stride and offset in bytes, and the buffer bound to `GL_ARRAY_BUFFER` when it
was declared. -/
structure AttribPointer where
  size : Nat
  type : GLenum
  stride : Nat
  offset : Nat
  buffer : GLuint
  deriving DecidableEq

/-- What one `glDrawElements` call read: the indices taken from the element
array buffer, and for every enabled attribute array the components fetched for
each index. -/
structure DrawRecord where
  mode : GLenum
  count : Nat
  indices : List Nat
  attribs : List (GLuint × List (List GLfloat))
  deriving DecidableEq

/-- Observable state of the OpenGL driver. -/
structure GLState where
  buffer_names : Nat
  object_names : Nat
  array_buffer : GLuint
  element_array_buffer : GLuint
  buffers : List (GLuint × ClientArray)
  shaders : List (GLuint × ShaderObject)
  programs : List (GLuint × ProgramObject)
  current_program : GLuint
  uniforms : List (GLint × GLfloat)
  max_vertex_attribs : Nat
  attrib_pointers : List (GLuint × AttribPointer)
  attrib_enabled : List GLuint
  draws : List DrawRecord
  deriving DecidableEq

/-- Calls into OpenGL, GLEW and GLUT, in the order made. -/
inductive Call where
  | glutInit
  | glutInitDisplayMode
  | glutInitWindowSize (width height : Nat)
  | glutCreateWindow (title : String)
  | glutIdleFunc
  | glutTimerFunc (msecs : Nat) (value : Int)
  | glutDisplayFunc
  | glutKeyboardFunc
  | glewInit
  | glutMainLoop
  | glutGet
  | glutPostRedisplay
  | glutSwapBuffers
  | glGenBuffers (name : GLuint)
  | glBindBuffer (target : GLenum) (name : GLuint)
  | glBufferData (target : GLenum) (size : Nat)
  | glCreateShader (kind : GLenum) (name : GLuint)
  | glShaderSource (shader : GLuint)
  | glCompileShader (shader : GLuint)
  | glGetShaderiv (shader : GLuint) (pname : GLenum)
  | glGetShaderInfoLog (shader : GLuint)
  | glDeleteShader (shader : GLuint)
  | glCreateProgram (name : GLuint)
  | glAttachShader (program shader : GLuint)
  | glLinkProgram (program : GLuint)
  | glGetProgramiv (program : GLuint) (pname : GLenum)
  | glGetProgramInfoLog (program : GLuint)
  | glDeleteProgram (program : GLuint)
  | glGetUniformLocation (program : GLuint) (name : String)
  | glGetAttribLocation (program : GLuint) (name : String)
  | glClearColor
  | glClear
  | glUseProgram (program : GLuint)
  | glUniform1f (location : GLint) (value : GLfloat)
  | glActiveTexture
  | glVertexAttribPointer (index : GLuint) (size : Nat) (stride : Nat) (offset : Nat)
  | glEnableVertexAttribArray (index : GLuint)
  | glDrawElements (mode : GLenum) (count : Nat) (type : GLenum) (offset : Nat)
  | glDisableVertexAttribArray (index : GLuint)
  deriving DecidableEq

/-- Everything outside the program's own variables: the driver's state, the
text written to the error stream, and the trace of library calls. -/
structure Env where
  gl : GLState
  stderr : List Char
  calls : List Call
  deriving DecidableEq

/-- Record one library call. -/
def Env.call (e : Env) (c : Call) : Env :=
  { e with calls := e.calls ++ [c] }

/-- Function `fprintf(stderr, ...)` with the formatted text already built. -/
def Env.fprintf (e : Env) (text : List Char) : Env :=
  { e with stderr := e.stderr ++ text }

/-! ## The program's variables -/

/-- The anonymous struct behind `g_resources`. -/
structure Resources where
  vertex_buffer : GLuint
  element_buffer : GLuint
  vertex_shader : GLuint
  fragment_shader : GLuint
  program : GLuint
  uniforms_fade_factor : GLint
  attributes_position : GLint
  fade_factor : GLfloat
  deriving DecidableEq

/-- The file-scope variables of `ah-main.c` (`last_print` is the static local of
`update_fps`) together with the outside world. -/
structure World where
  g_resources : Resources
  update_paused : Int
  ah_posted_redisplays : Nat
  last_print : Int
  env : Env
  deriving DecidableEq

/-- How a piece of the program ends: it returns to the event loop, or the
process has terminated with a status. -/
inductive Outcome where
  | running (w : World)
  | exited (status : Int) (w : World)
  deriving DecidableEq

/-- Driver state before any call. -/
def GLState.init : GLState :=
  { buffer_names := 0, object_names := 0, array_buffer := 0, element_array_buffer := 0,
    buffers := [], shaders := [], programs := [], current_program := 0, uniforms := [],
    max_vertex_attribs := 0, attrib_pointers := [], attrib_enabled := [], draws := [] }

/-- State at process start: statics are zero, nothing written, nothing called. -/
def World.init : World :=
  { g_resources :=
      { vertex_buffer := 0, element_buffer := 0, vertex_shader := 0, fragment_shader := 0,
        program := 0, uniforms_fade_factor := 0, attributes_position := 0,
        fade_factor := .const 0 },
    update_paused := 0,
    ah_posted_redisplays := 0,
    last_print := 0,
    env := { gl := GLState.init, stderr := [], calls := [] } }

/-! ## OpenGL and GLUT entry points

Each entry point records itself in the trace and changes the driver state the
way the OpenGL 2.0 specification says.  Object names are handed out
consecutively from 1; buffers have their own name space, shaders and programs
share one. -/

/-- Conversion of an `int` to `unsigned int` (`GLint` to `GLuint`). -/
def toGLuint (i : Int) : GLuint := (i % (UINT_MODULUS : Int)).toNat

/-- The buffer bound to a target. -/
def GLState.bound (gl : GLState) : GLenum → GLuint
  | .GL_ARRAY_BUFFER => gl.array_buffer
  | .GL_ELEMENT_ARRAY_BUFFER => gl.element_array_buffer
  | _ => 0

/-- Call `glGenBuffers(1, &buffer)`: the value stored in `buffer`. -/
def glGenBuffers (e : Env) : GLuint × Env :=
  (e.gl.buffer_names + 1,
    ({ e with gl := { e.gl with buffer_names := e.gl.buffer_names + 1 } }).call
      (.glGenBuffers (e.gl.buffer_names + 1)))

def glBindBuffer (target : GLenum) (buffer : GLuint) (e : Env) : Env :=
  ({ e with gl :=
      match target with
      | .GL_ARRAY_BUFFER => { e.gl with array_buffer := buffer }
      | .GL_ELEMENT_ARRAY_BUFFER => { e.gl with element_array_buffer := buffer }
      | _ => e.gl }).call (.glBindBuffer target buffer)

/-- Call `glBufferData(target, size, data, GL_STATIC_DRAW)`: the first `size`
bytes at `data` become the data store of the buffer bound to `target`. -/
def glBufferData (target : GLenum) (size : GLsizei) (data : ClientArray) (e : Env) : Env :=
  ({ e with gl :=
      { e.gl with
        buffers :=
          if e.gl.bound target = 0 then e.gl.buffers
          else (e.gl.bound target, data.takeBytes size) :: e.gl.buffers } }).call
    (.glBufferData target size)

def glCreateShader (kind : GLenum) (e : Env) : GLuint × Env :=
  (e.gl.object_names + 1,
    ({ e with gl :=
        { e.gl with
          object_names := e.gl.object_names + 1,
          shaders :=
            (e.gl.object_names + 1, { kind := kind, source := "", compiled := false }) ::
              e.gl.shaders } }).call
      (.glCreateShader kind (e.gl.object_names + 1)))

def glShaderSource (shader : GLuint) (source : String) (e : Env) : Env :=
  ({ e with gl :=
      match e.gl.shaders.lookup shader with
      | some s => { e.gl with shaders := (shader, { s with source := source }) :: e.gl.shaders }
      | none => e.gl }).call (.glShaderSource shader)

def glCompileShader (d : Driver) (shader : GLuint) (e : Env) : Env :=
  ({ e with gl :=
      match e.gl.shaders.lookup shader with
      | some s =>
        { e.gl with
          shaders := (shader, { s with compiled := d.compile_status s.kind s.source }) ::
            e.gl.shaders }
      | none => e.gl }).call (.glCompileShader shader)

/-- Call `glGetShaderiv(shader, pname, &result)`: the value stored in `result`. -/
def glGetShaderiv (d : Driver) (shader : GLuint) (pname : GLenum) (e : Env) : GLint × Env :=
  ((match e.gl.shaders.lookup shader with
    | some s =>
      match pname with
      | .GL_COMPILE_STATUS => if s.compiled then 1 else 0
      | .GL_INFO_LOG_LENGTH => ((d.shader_info_log s.kind s.source).length + 1 : Nat)
      | _ => 0
    | none => 0),
    e.call (.glGetShaderiv shader pname))

/-- Call `glGetShaderInfoLog(shader, maxLength, NULL, log)`: the text stored in
`log`, without its terminator. -/
def glGetShaderInfoLog (d : Driver) (shader : GLuint) (maxLength : GLint) (e : Env) :
    List Char × Env :=
  ((match e.gl.shaders.lookup shader with
    | some s => (d.shader_info_log s.kind s.source).take (maxLength.toNat - 1)
    | none => []),
    e.call (.glGetShaderInfoLog shader))

def glDeleteShader (shader : GLuint) (e : Env) : Env :=
  ({ e with gl := { e.gl with shaders := e.gl.shaders.filter (fun p => p.1 ≠ shader) } }).call
    (.glDeleteShader shader)

def glCreateProgram (e : Env) : GLuint × Env :=
  (e.gl.object_names + 1,
    ({ e with gl :=
        { e.gl with
          object_names := e.gl.object_names + 1,
          programs :=
            (e.gl.object_names + 1, { attached := [], stages := [], linked := false }) ::
              e.gl.programs } }).call
      (.glCreateProgram (e.gl.object_names + 1)))

def glAttachShader (program shader : GLuint) (e : Env) : Env :=
  ({ e with gl :=
      match e.gl.programs.lookup program with
      | some p =>
        { e.gl with
          programs := (program, { p with attached := p.attached ++ [shader] }) :: e.gl.programs }
      | none => e.gl }).call (.glAttachShader program shader)

/-- The stage kind and source text of each attached shader. -/
def GLState.stagesOf (gl : GLState) (attached : List GLuint) : List (GLenum × String) :=
  attached.filterMap (fun s => (gl.shaders.lookup s).map (fun o => (o.kind, o.source)))

def glLinkProgram (d : Driver) (program : GLuint) (e : Env) : Env :=
  ({ e with gl :=
      match e.gl.programs.lookup program with
      | some p =>
        { e.gl with
          programs :=
            (program,
              { p with
                stages := e.gl.stagesOf p.attached,
                linked := d.link_status (e.gl.stagesOf p.attached) }) :: e.gl.programs }
      | none => e.gl }).call (.glLinkProgram program)

/-- Call `glGetProgramiv(program, pname, &result)`: the value stored in `result`. -/
def glGetProgramiv (d : Driver) (program : GLuint) (pname : GLenum) (e : Env) : GLint × Env :=
  ((match e.gl.programs.lookup program with
    | some p =>
      match pname with
      | .GL_LINK_STATUS => if p.linked then 1 else 0
      | .GL_INFO_LOG_LENGTH => ((d.program_info_log p.stages).length + 1 : Nat)
      | _ => 0
    | none => 0),
    e.call (.glGetProgramiv program pname))

def glGetProgramInfoLog (d : Driver) (program : GLuint) (maxLength : GLint) (e : Env) :
    List Char × Env :=
  ((match e.gl.programs.lookup program with
    | some p => (d.program_info_log p.stages).take (maxLength.toNat - 1)
    | none => []),
    e.call (.glGetProgramInfoLog program))

def glDeleteProgram (program : GLuint) (e : Env) : Env :=
  ({ e with gl := { e.gl with programs := e.gl.programs.filter (fun p => p.1 ≠ program) } }).call
    (.glDeleteProgram program)

/-- Call `glGetUniformLocation(program, name)`; `-1` when the program is not
linked. -/
def glGetUniformLocation (d : Driver) (program : GLuint) (name : String) (e : Env) :
    GLint × Env :=
  ((match e.gl.programs.lookup program with
    | some p => if p.linked then d.uniform_location p.stages name else -1
    | none => -1),
    e.call (.glGetUniformLocation program name))

/-- Call `glGetAttribLocation(program, name)`; `-1` when the program is not
linked. -/
def glGetAttribLocation (d : Driver) (program : GLuint) (name : String) (e : Env) :
    GLint × Env :=
  ((match e.gl.programs.lookup program with
    | some p => if p.linked then d.attrib_location p.stages name else -1
    | none => -1),
    e.call (.glGetAttribLocation program name))

def glUseProgram (program : GLuint) (e : Env) : Env :=
  ({ e with gl := { e.gl with current_program := program } }).call (.glUseProgram program)

/-- Call `glUniform1f(location, v0)`; location `-1` is ignored. -/
def glUniform1f (location : GLint) (v0 : GLfloat) (e : Env) : Env :=
  ({ e with gl :=
      { e.gl with
        uniforms :=
          if location = -1 then e.gl.uniforms else (location, v0) :: e.gl.uniforms } }).call
    (.glUniform1f location v0)

/-- Call `glVertexAttribPointer(index, size, type, GL_FALSE, stride, pointer)`:
the declaration captures the buffer bound to `GL_ARRAY_BUFFER`.  An index not
below `GL_MAX_VERTEX_ATTRIBS` is an error and changes nothing. -/
def glVertexAttribPointer (index : GLuint) (size : Nat) (type : GLenum) (stride : Nat)
    (pointer : Nat) (e : Env) : Env :=
  ({ e with gl :=
      { e.gl with
        attrib_pointers :=
          if index < e.gl.max_vertex_attribs then
            (index,
              { size := size, type := type, stride := stride, offset := pointer,
                buffer := e.gl.array_buffer }) :: e.gl.attrib_pointers
          else e.gl.attrib_pointers } }).call
    (.glVertexAttribPointer index size stride pointer)

/-- Call `glEnableVertexAttribArray(index)`; an index not below
`GL_MAX_VERTEX_ATTRIBS` is an error and changes nothing. -/
def glEnableVertexAttribArray (index : GLuint) (e : Env) : Env :=
  ({ e with gl :=
      { e.gl with
        attrib_enabled :=
          if index < e.gl.max_vertex_attribs then
            index :: e.gl.attrib_enabled.filter (fun a => a ≠ index)
          else e.gl.attrib_enabled } }).call
    (.glEnableVertexAttribArray index)

/-- Call `glDisableVertexAttribArray(index)`; an index not below
`GL_MAX_VERTEX_ATTRIBS` is an error and changes nothing. -/
def glDisableVertexAttribArray (index : GLuint) (e : Env) : Env :=
  ({ e with gl :=
      { e.gl with
        attrib_enabled :=
          if index < e.gl.max_vertex_attribs then
            e.gl.attrib_enabled.filter (fun a => a ≠ index)
          else e.gl.attrib_enabled } }).call
    (.glDisableVertexAttribArray index)

/-- The `count` unsigned shorts read from the element array buffer, starting at
a byte offset. -/
def GLState.fetchIndices (gl : GLState) (count offset : Nat) : List Nat :=
  match gl.buffers.lookup gl.element_array_buffer with
  | some (.ushorts xs) => (xs.drop (offset / sizeof_GLushort)).take count
  | _ => []

/-- The components of vertex `i` read through an attribute declaration. -/
def GLState.fetchAttrib (gl : GLState) (p : AttribPointer) (i : Nat) : List GLfloat :=
  match gl.buffers.lookup p.buffer with
  | some (.floats xs) => (xs.drop ((p.offset + i * p.stride) / sizeof_GLfloat)).take p.size
  | _ => []

/-- Call `glDrawElements(mode, count, GL_UNSIGNED_SHORT, indices)`. -/
def glDrawElements (mode : GLenum) (count : Nat) (type : GLenum) (indices : Nat) (e : Env) :
    Env :=
  ({ e with gl :=
      { e.gl with
        draws := e.gl.draws ++
          [DrawRecord.mk mode count (e.gl.fetchIndices count indices)
            (e.gl.attrib_enabled.filterMap (fun a =>
              (e.gl.attrib_pointers.lookup a).map (fun p =>
                (a, (e.gl.fetchIndices count indices).map (e.gl.fetchAttrib p)))))] } }).call
    (.glDrawElements mode count type indices)

/-! ## `ah-main.c`: creating OpenGL objects -/

def make_buffer (target : GLenum) (buffer_data : ClientArray) (buffer_size : GLsizei)
    (e : Env) : GLuint × Env :=
  let buffer := glGenBuffers e
  (buffer.1, glBufferData target buffer_size buffer_data (glBindBuffer target buffer.1 buffer.2))

def show_info_log (object : GLuint) (glGet__iv : GLuint → GLenum → Env → GLint × Env)
    (glGet__InfoLog : GLuint → GLint → Env → List Char × Env) (e : Env) : Env :=
  let log_length := glGet__iv object .GL_INFO_LOG_LENGTH e
  let log := glGet__InfoLog object log_length.1 log_length.2
  log.2.fprintf log.1

/-- Function `make_shader`; the result `0` is the failure indicator. -/
def make_shader (d : Driver) (type : GLenum) (filename : String) (e : Env) : GLuint × Env :=
  match d.file_contents filename with
  | none => (0, e)
  | some source =>
    let shader := glCreateShader type e
    let shader_ok := glGetShaderiv d shader.1 .GL_COMPILE_STATUS
      (glCompileShader d shader.1 (glShaderSource shader.1 source shader.2))
    if shader_ok.1 = 0 then
      (0, glDeleteShader shader.1
        (show_info_log shader.1 (glGetShaderiv d) (glGetShaderInfoLog d)
          (shader_ok.2.fprintf
            ("Failed to compile ".toList ++ filename.toList ++ ":\n".toList))))
    else (shader.1, shader_ok.2)

/-- Function `make_program`; the result `0` is the failure indicator. -/
def make_program (d : Driver) (vertex_shader fragment_shader : GLuint) (e : Env) :
    GLuint × Env :=
  let program := glCreateProgram e
  let program_ok := glGetProgramiv d program.1 .GL_LINK_STATUS
    (glLinkProgram d program.1
      (glAttachShader program.1 fragment_shader
        (glAttachShader program.1 vertex_shader program.2)))
  if program_ok.1 = 0 then
    (0, glDeleteProgram program.1
      (show_info_log program.1 (glGetProgramiv d) (glGetProgramInfoLog d)
        (program_ok.2.fprintf "Failed to link shader program:\n".toList)))
  else (program.1, program_ok.2)

/-! ## `ah-main.c`: vertex and element data -/

def N_VERTEX : Nat := 7

def HEX_RADIUS : ℚ := 1.0

def M_SQRT3 : ℚ := 1.7320508075688772

def g_vertex_buffer_data : List GLfloat :=
  [ .const HEX_RADIUS, .const 0,
    .const (HEX_RADIUS / 2.0), .const (HEX_RADIUS * M_SQRT3 / 2.0),
    .const (-HEX_RADIUS / 2.0), .const (HEX_RADIUS * M_SQRT3 / 2.0),
    .const (-HEX_RADIUS), .const 0,
    .const (-HEX_RADIUS / 2.0), .const (-HEX_RADIUS * M_SQRT3 / 2.0),
    .const (HEX_RADIUS / 2.0), .const (-HEX_RADIUS * M_SQRT3 / 2.0),
    .const HEX_RADIUS, .const 0 ]

def g_element_buffer_data : List Nat := [0, 1, 2, 3, 4, 5, 6, 7]

/-! ## `ah-main.c`: loading -/

/-- Function `make_resources`; the first component is the `int` returned. -/
def make_resources (d : Driver) (w : World) : Int × World :=
  let vertex_buffer := make_buffer .GL_ARRAY_BUFFER (.floats g_vertex_buffer_data)
    (N_VERTEX * sizeof_GLfloat * 2) w.env
  let element_buffer := make_buffer .GL_ELEMENT_ARRAY_BUFFER (.ushorts g_element_buffer_data)
    (N_VERTEX * sizeof_GLushort) vertex_buffer.2
  let vertex_shader := make_shader d .GL_VERTEX_SHADER "ah.v.glsl" element_buffer.2
  let w1 : World :=
    { w with
      g_resources :=
        { w.g_resources with
          vertex_buffer := vertex_buffer.1,
          element_buffer := element_buffer.1,
          vertex_shader := vertex_shader.1 },
      env := vertex_shader.2 }
  if vertex_shader.1 = 0 then (0, w1)
  else
    let fragment_shader := make_shader d .GL_FRAGMENT_SHADER "ah.f.glsl" vertex_shader.2
    let w2 : World :=
      { w1 with
        g_resources := { w1.g_resources with fragment_shader := fragment_shader.1 },
        env := fragment_shader.2 }
    if fragment_shader.1 = 0 then (0, w2)
    else
      let program := make_program d vertex_shader.1 fragment_shader.1 fragment_shader.2
      let w3 : World :=
        { w2 with g_resources := { w2.g_resources with program := program.1 }, env := program.2 }
      if program.1 = 0 then (0, w3)
      else
        let fade_factor := glGetUniformLocation d program.1 "fade_factor" program.2
        let position := glGetAttribLocation d program.1 "position" fade_factor.2
        (1,
          { w3 with
            g_resources :=
              { w3.g_resources with
                uniforms_fade_factor := fade_factor.1,
                attributes_position := position.1 },
            env := position.2 })

/-! ## `ah-main.c`: GLUT callbacks -/

/-- Function `update_fade_factor`; `elapsed` is what `glutGet(GLUT_ELAPSED_TIME)`
returns when it is asked. -/
def update_fade_factor (elapsed : Int) (w : World) : World :=
  if w.update_paused = 0 then
    { w with
      g_resources := { w.g_resources with fade_factor := .fade elapsed },
      ah_posted_redisplays := (w.ah_posted_redisplays + 1) % UINT_MODULUS,
      env := (w.env.call .glutGet).call .glutPostRedisplay }
  else w

/-- Conversion `%4u`: decimal digits, padded on the left with spaces to a width
of 4. -/
def fmt_4u (n : Nat) : List Char :=
  List.replicate (4 - (Nat.toDigits 10 n).length) ' ' ++ Nat.toDigits 10 n

/-- Function `update_fps`.  The result is `none` where the C expression has no
defined value: `seconds_counted + 1` overflows, or the divisor is zero. -/
def update_fps (seconds_counted : Int) (w : World) : Option World :=
  if INT_MAX < seconds_counted + 1 then none
  else if toGLuint (seconds_counted + 1) = 0 then none
  else
    some
      { w with
        last_print :=
          (("FPS: ".toList ++
            fmt_4u (w.ah_posted_redisplays / toGLuint (seconds_counted + 1))).length : Nat),
        env :=
          (((w.env.call (.glutTimerFunc 1000 (seconds_counted + 1))).fprintf
            (List.replicate w.last_print.toNat (Char.ofNat 8))).fprintf
              ("FPS: ".toList ++
                fmt_4u (w.ah_posted_redisplays / toGLuint (seconds_counted + 1)))) }

def render (w : World) : World :=
  let e1 := glUseProgram w.g_resources.program ((w.env.call .glClearColor).call .glClear)
  let e2 := glUniform1f w.g_resources.uniforms_fade_factor w.g_resources.fade_factor e1
  let e3 := glBindBuffer .GL_ARRAY_BUFFER w.g_resources.vertex_buffer (e2.call .glActiveTexture)
  let e4 := glVertexAttribPointer (toGLuint w.g_resources.attributes_position) 2 .GL_FLOAT
    (sizeof_GLfloat * 2) 0 e3
  let e5 := glEnableVertexAttribArray (toGLuint w.g_resources.attributes_position) e4
  let e6 := glBindBuffer .GL_ELEMENT_ARRAY_BUFFER w.g_resources.element_buffer e5
  let e7 := glDrawElements .GL_TRIANGLE_FAN N_VERTEX .GL_UNSIGNED_SHORT 0 e6
  let e8 := glDisableVertexAttribArray (toGLuint w.g_resources.attributes_position) e7
  { w with env := e8.call .glutSwapBuffers }

/-- Function `keyboard`; `key` is an `unsigned char`. -/
def keyboard (key : Nat) (_x _y : Int) (w : World) : Outcome :=
  if key = 32 then
    .running { w with update_paused := if w.update_paused = 0 then 1 else 0 }
  else if key = 27 then
    .exited 0 { w with env := w.env.fprintf ['\n'] }
  else .running w

/-! ## `ah-main.c`: entry point -/

/-- Call `glutCreateWindow(title)`: the window comes with an OpenGL context,
whose limits are the driver's. -/
def glutCreateWindow (d : Driver) (title : String) (e : Env) : Env :=
  ({ e with gl := { e.gl with max_vertex_attribs := d.max_vertex_attribs } }).call
    (.glutCreateWindow title)

/-- The calls of `main` up to and including `glewInit`. -/
def main_setup (d : Driver) (w : World) : World :=
  { w with env :=
      (((((glutCreateWindow d "Hello World"
        (((w.env.call .glutInit).call .glutInitDisplayMode).call
          (.glutInitWindowSize 400 400))).call
            .glutIdleFunc).call (.glutTimerFunc 1000 0)).call .glutDisplayFunc).call
              .glutKeyboardFunc).call .glewInit }

/-- Function `main`: `exited` with the status returned, or `running` once
`glutMainLoop` has been entered. -/
def main (d : Driver) : Outcome :=
  if d.GLEW_VERSION_2_0 = false then
    .exited 1
      { main_setup d World.init with
        env := (main_setup d World.init).env.fprintf "OpenGL 2.0 not available\n".toList }
  else if (make_resources d (main_setup d World.init)).1 = 0 then
    .exited 1
      { (make_resources d (main_setup d World.init)).2 with
        env := (make_resources d (main_setup d World.init)).2.env.fprintf
          "Failed to load resources\n".toList }
  else
    .running
      { (make_resources d (main_setup d World.init)).2 with
        env := (make_resources d (main_setup d World.init)).2.env.call .glutMainLoop }

/-! ## The event loop -/

/-- States in which GLUT may run a callback: the state in which `main` enters
the main loop, and every state a callback returns to the loop in. -/
inductive Reachable (d : Driver) : World → Prop where
  | entry {w : World} : main d = .running w → Reachable d w
  | idle {w : World} (elapsed : Int) : Reachable d w → Reachable d (update_fade_factor elapsed w)
  | timer {w w1 : World} (seconds_counted : Int) :
      Reachable d w → update_fps seconds_counted w = some w1 → Reachable d w1
  | display {w : World} : Reachable d w → Reachable d (render w)
  | key {w w1 : World} (k : Nat) (x y : Int) :
      Reachable d w → keyboard k x y w = .running w1 → Reachable d w1

/-! ## Sample environments -/

/-- An environment in which everything succeeds. -/
def sampleDriver : Driver :=
  { GLEW_VERSION_2_0 := true,
    file_contents := fun name =>
      if name = "ah.v.glsl" then some "vertex text"
      else if name = "ah.f.glsl" then some "fragment text"
      else none,
    compile_status := fun _ _ => true,
    shader_info_log := fun _ _ => [],
    link_status := fun _ => true,
    program_info_log := fun _ => [],
    uniform_location := fun _ _ => 0,
    attrib_location := fun _ _ => 0,
    max_vertex_attribs := 16 }

/-- The state in which `main` leaves off in a given environment. -/
def finalWorld (d : Driver) : World :=
  match main d with
  | .running w => w
  | .exited _ w => w

/-! ## Definitions used in the statements: invariants, the specification's
wording, further sample environments -/

/-- A paused state with a fade factor computed at 250 ms. -/
def pausedWorld : World :=
  { update_fade_factor 250 World.init with update_paused := 1 }

/-- The state the loader leaves behind, as far as the callbacks keep it: the
two buffers with their data stores, the two compiled shaders, the linked
program, the locations the driver resolved, and no attribute array left
enabled. -/
structure Loaded (d : Driver) (w : World) : Prop where
  paused : w.update_paused = 0 ∨ w.update_paused = 1
  vertex_buffer : w.g_resources.vertex_buffer = 1
  element_buffer : w.g_resources.element_buffer = 2
  vertex_shader : w.g_resources.vertex_shader = 1
  fragment_shader : w.g_resources.fragment_shader = 2
  program : w.g_resources.program = 3
  buffers : w.env.gl.buffers =
    [(2, .ushorts [0, 1, 2, 3, 4, 5, 6]), (1, .floats g_vertex_buffer_data)]
  objects : ∃ sv sf,
    w.env.gl.shaders.lookup 1 = some ⟨.GL_VERTEX_SHADER, sv, true⟩ ∧
    w.env.gl.shaders.lookup 2 = some ⟨.GL_FRAGMENT_SHADER, sf, true⟩ ∧
    w.env.gl.programs.lookup 3 =
      some ⟨[1, 2], [(.GL_VERTEX_SHADER, sv), (.GL_FRAGMENT_SHADER, sf)], true⟩ ∧
    w.g_resources.uniforms_fade_factor =
      d.uniform_location [(.GL_VERTEX_SHADER, sv), (.GL_FRAGMENT_SHADER, sf)] "fade_factor" ∧
    w.g_resources.attributes_position =
      d.attrib_location [(.GL_VERTEX_SHADER, sv), (.GL_FRAGMENT_SHADER, sf)] "position"
  attrib_enabled : w.env.gl.attrib_enabled = []

/-- The environment after the two `make_buffer` calls of `make_resources`. -/
def buffers_made (e : Env) : Env :=
  (make_buffer .GL_ELEMENT_ARRAY_BUFFER (.ushorts g_element_buffer_data)
    (N_VERTEX * sizeof_GLushort)
    (make_buffer .GL_ARRAY_BUFFER (.floats g_vertex_buffer_data)
      (N_VERTEX * sizeof_GLfloat * 2) e).2).2

/-- Calls that `make_program` makes to build and link a program. -/
def Call.isLink : Call → Bool
  | .glCreateProgram _ => true
  | .glAttachShader _ _ => true
  | .glLinkProgram _ => true
  | _ => false

/-- An environment in which `ah.f.glsl` is missing. -/
def noFragmentDriver : Driver :=
  { sampleDriver with
    file_contents := fun name => if name = "ah.v.glsl" then some "vertex text" else none }

/-- The failure conditions the specification lists for the loader: a shader
source file is unreadable, a shader fails to compile, or the program fails to
link. -/
def spec_load_fails (d : Driver) : Prop :=
  d.file_contents "ah.v.glsl" = none ∨ d.file_contents "ah.f.glsl" = none ∨
    (∃ s, d.file_contents "ah.v.glsl" = some s ∧
      d.compile_status .GL_VERTEX_SHADER s = false) ∨
    (∃ s, d.file_contents "ah.f.glsl" = some s ∧
      d.compile_status .GL_FRAGMENT_SHADER s = false) ∨
    (∃ sv sf, d.file_contents "ah.v.glsl" = some sv ∧ d.file_contents "ah.f.glsl" = some sf ∧
      d.link_status [(.GL_VERTEX_SHADER, sv), (.GL_FRAGMENT_SHADER, sf)] = false)

/-- The specification's "fully populated": every handle of `g_resources` is
valid, the resolved uniform and attribute locations included (a location is
valid when it is not negative). -/
def spec_fully_populated (w : World) : Prop :=
  w.g_resources.vertex_buffer ≠ 0 ∧ w.g_resources.element_buffer ≠ 0 ∧
    w.g_resources.vertex_shader ≠ 0 ∧ w.g_resources.fragment_shader ≠ 0 ∧
    w.g_resources.program ≠ 0 ∧ 0 ≤ w.g_resources.uniforms_fade_factor ∧
    0 ≤ w.g_resources.attributes_position

/-- What the loader's checks do establish: both buffers exist with a data
store, both shaders exist and are compiled, the program exists, is linked and
has the two shaders attached, and the two locations are the values the driver
gave for `fade_factor` and `position` in that program. -/
structure ObjectsValid (d : Driver) (w : World) : Prop where
  vertex_buffer : w.g_resources.vertex_buffer ≠ 0 ∧
    w.env.gl.buffers.lookup w.g_resources.vertex_buffer = some (.floats g_vertex_buffer_data)
  element_buffer : w.g_resources.element_buffer ≠ 0 ∧
    w.env.gl.buffers.lookup w.g_resources.element_buffer =
      some (.ushorts [0, 1, 2, 3, 4, 5, 6])
  vertex_shader : w.g_resources.vertex_shader ≠ 0 ∧
    ∃ s, w.env.gl.shaders.lookup w.g_resources.vertex_shader = some s ∧
      s.kind = .GL_VERTEX_SHADER ∧ s.compiled = true
  fragment_shader : w.g_resources.fragment_shader ≠ 0 ∧
    ∃ s, w.env.gl.shaders.lookup w.g_resources.fragment_shader = some s ∧
      s.kind = .GL_FRAGMENT_SHADER ∧ s.compiled = true
  program : w.g_resources.program ≠ 0 ∧
    ∃ p, w.env.gl.programs.lookup w.g_resources.program = some p ∧ p.linked = true ∧
      p.attached = [w.g_resources.vertex_shader, w.g_resources.fragment_shader] ∧
      w.g_resources.uniforms_fade_factor = d.uniform_location p.stages "fade_factor" ∧
      w.g_resources.attributes_position = d.attrib_location p.stages "position"

/-- An environment whose shaders compile and link but declare neither the
uniform `fade_factor` nor the attribute `position`. -/
def noLocationDriver : Driver :=
  { sampleDriver with uniform_location := fun _ _ => -1, attrib_location := fun _ _ => -1 }

attribute [simp] Env.call Env.fprintf GLState.bound glGenBuffers glBindBuffer glBufferData
  glCreateShader glShaderSource glCompileShader glGetShaderiv glGetShaderInfoLog glDeleteShader
  glCreateProgram glAttachShader glLinkProgram glGetProgramiv glGetProgramInfoLog
  glDeleteProgram glGetUniformLocation glGetAttribLocation glUseProgram glUniform1f
  glVertexAttribPointer glEnableVertexAttribArray glDisableVertexAttribArray glDrawElements
  glutCreateWindow make_buffer show_info_log ClientArray.takeBytes

theorem take_vertex_data : List.take 14 g_vertex_buffer_data = g_vertex_buffer_data := rfl

theorem take_element_data : List.take 7 g_element_buffer_data = [0, 1, 2, 3, 4, 5, 6] := rfl

theorem update_fade_factor_paused (w : World) (elapsed : Int) (h : w.update_paused ≠ 0) :
    update_fade_factor elapsed w = w := by
  simp [update_fade_factor, h]

theorem idle_ticks_paused (w : World) (ticks : List Int) (h : w.update_paused ≠ 0) :
    ticks.foldl (fun s elapsed => update_fade_factor elapsed s) w = w := by
  induction ticks with
  | nil => rfl
  | cons t ts ih => simpa [List.foldl, update_fade_factor_paused w t h] using ih

/-- C2: in a state whose paused flag is set, any finite sequence of idle ticks,
whatever the clock reads at each, leaves the fade factor as it was. -/
theorem fade_factor_unchanged_while_paused (w : World) (ticks : List Int)
    (h : w.update_paused ≠ 0) :
    (ticks.foldl (fun s elapsed => update_fade_factor elapsed s) w).g_resources.fade_factor =
      w.g_resources.fade_factor := by
  rw [idle_ticks_paused w ticks h]

theorem fade_factor_unchanged_while_paused_witness :
    pausedWorld.update_paused ≠ 0 ∧
      ([266, 283, 300].foldl (fun s elapsed => update_fade_factor elapsed s)
        pausedWorld).g_resources.fade_factor = .fade 250 :=
  ⟨by decide, fade_factor_unchanged_while_paused pausedWorld [266, 283, 300] (by decide)⟩

/-! ## Exit key -/

/-- C5: in every state, paused or not, the keyboard callback called with key 27
ends the process with status 0; the error stream has gained exactly one newline
as its last character, and nothing else of the state has changed. -/
theorem keyboard_escape_exits (w : World) (x y : Int) :
    keyboard 27 x y w =
      .exited 0 { w with env := { w.env with stderr := w.env.stderr ++ ['\n'] } } := by
  simp [keyboard]

/-! ## What holds whenever a callback runs -/

theorem loaded_of_main (d : Driver) (w : World) (h : main d = .running w) : Loaded d w := by
  cases hg : d.GLEW_VERSION_2_0 with
  | false => simp [main, hg] at h
  | true =>
    cases hv : d.file_contents "ah.v.glsl" with
    | none => simp [main, hg, make_resources, make_shader, hv] at h
    | some sv =>
      cases hcv : d.compile_status .GL_VERTEX_SHADER sv with
      | false => simp [main, hg, make_resources, make_shader, hv, hcv] at h
      | true =>
        cases hf : d.file_contents "ah.f.glsl" with
        | none => simp [main, hg, make_resources, make_shader, hv, hcv, hf] at h
        | some sf =>
          cases hcf : d.compile_status .GL_FRAGMENT_SHADER sf with
          | false => simp [main, hg, make_resources, make_shader, hv, hcv, hf, hcf] at h
          | true =>
            cases hl : d.link_status [(.GL_VERTEX_SHADER, sv), (.GL_FRAGMENT_SHADER, sf)] with
            | false =>
              simp [main, hg, make_resources, make_shader, make_program, hv, hcv, hf, hcf, hl,
                main_setup, World.init, GLState.init, GLState.stagesOf, List.lookup] at h
            | true =>
              simp [main, hg, make_resources, make_shader, make_program, hv, hcv, hf, hcf, hl,
                main_setup, World.init, GLState.init, GLState.stagesOf, List.lookup] at h
              subst h
              constructor <;>
                simp [N_VERTEX, sizeof_GLfloat, sizeof_GLushort, take_vertex_data,
                  take_element_data, List.lookup, hl]

theorem loaded_update_fade_factor (d : Driver) (w : World) (elapsed : Int) (h : Loaded d w) :
    Loaded d (update_fade_factor elapsed w) := by
  obtain ⟨h1, h2, h3, h4, h5, h6, h7, h8, h9⟩ := h
  unfold update_fade_factor
  split
  · constructor <;> simp_all
  · constructor <;> assumption

theorem loaded_update_fps (d : Driver) (w w1 : World) (seconds_counted : Int) (h : Loaded d w)
    (hs : update_fps seconds_counted w = some w1) : Loaded d w1 := by
  obtain ⟨h1, h2, h3, h4, h5, h6, h7, h8, h9⟩ := h
  unfold update_fps at hs
  split at hs
  · simp at hs
  · split at hs
    · simp at hs
    · simp only [Option.some.injEq] at hs
      subst hs
      constructor <;> simp_all

theorem render_frame (w : World) :
    (render w).g_resources = w.g_resources ∧ (render w).update_paused = w.update_paused ∧
      (render w).env.gl.buffers = w.env.gl.buffers ∧
      (render w).env.gl.shaders = w.env.gl.shaders ∧
      (render w).env.gl.programs = w.env.gl.programs := by
  simp [render]

theorem render_attrib_enabled (w : World) (h : w.env.gl.attrib_enabled = []) :
    (render w).env.gl.attrib_enabled = [] := by
  simp only [render, glDisableVertexAttribArray, glDrawElements, glBindBuffer,
    glEnableVertexAttribArray, glVertexAttribPointer, glUniform1f, glUseProgram, Env.call, h]
  split_ifs <;> simp

theorem loaded_render (d : Driver) (w : World) (h : Loaded d w) : Loaded d (render w) := by
  obtain ⟨h1, h2, h3, h4, h5, h6, h7, h8, h9⟩ := h
  obtain ⟨r1, r2, r3, r4, r5⟩ := render_frame w
  constructor <;> (try simp only [r1, r2, r3, r4, r5]) <;>
    first | assumption | exact render_attrib_enabled w h9

theorem loaded_keyboard (d : Driver) (w w1 : World) (k : Nat) (x y : Int) (h : Loaded d w)
    (hk : keyboard k x y w = .running w1) : Loaded d w1 := by
  obtain ⟨h1, h2, h3, h4, h5, h6, h7, h8, h9⟩ := h
  unfold keyboard at hk
  split at hk
  · simp only [Outcome.running.injEq] at hk
    subst hk
    constructor <;> try simp_all
    rcases h1 with h1 | h1 <;> simp [h1]
  · split at hk
    · simp at hk
    · simp only [Outcome.running.injEq] at hk
      subst hk
      constructor <;> assumption

theorem loaded_of_reachable (d : Driver) (w : World) (h : Reachable d w) : Loaded d w := by
  induction h with
  | entry hm => exact loaded_of_main d _ hm
  | idle elapsed _ ih => exact loaded_update_fade_factor d _ elapsed ih
  | timer n _ hs ih => exact loaded_update_fps d _ _ n ih hs
  | display _ ih => exact loaded_render d _ ih
  | key k x y _ hk ih => exact loaded_keyboard d _ _ k x y ih hk

theorem main_running_of_reachable (d : Driver) (w : World) (h : Reachable d w) :
    ∃ w0, main d = .running w0 := by
  induction h with
  | entry hm => exact ⟨_, hm⟩
  | idle _ _ ih => exact ih
  | timer _ _ _ ih => exact ih
  | display _ ih => exact ih
  | key _ _ _ _ _ ih => exact ih

theorem sample_main : main sampleDriver = .running (finalWorld sampleDriver) := rfl

/-! ## Toggling pause -/

/-- C3: in every state reachable from program start through callbacks, two
consecutive keyboard calls with the space key (32) both return to the event
loop and leave the paused flag, and with it the whole state, as it was. -/
theorem pause_toggled_twice (d : Driver) (w : World) (x1 y1 x2 y2 : Int) (h : Reachable d w) :
    ∃ w1 w2, keyboard 32 x1 y1 w = .running w1 ∧ keyboard 32 x2 y2 w1 = .running w2 ∧
      w2.update_paused = w.update_paused ∧ w2 = w := by
  have hp := (loaded_of_reachable d w h).paused
  refine ⟨_, _, rfl, rfl, ?_, ?_⟩
  · rcases hp with hp | hp <;> simp [hp]
  · cases w
    rcases hp with hp | hp <;> simp_all

theorem pause_toggled_twice_witness :
    Reachable sampleDriver (update_fade_factor 16 (finalWorld sampleDriver)) ∧
      ∃ w1 w2,
        keyboard 32 10 20 (update_fade_factor 16 (finalWorld sampleDriver)) = .running w1 ∧
        keyboard 32 11 21 w1 = .running w2 ∧
        w2.update_paused = (update_fade_factor 16 (finalWorld sampleDriver)).update_paused ∧
        w2 = update_fade_factor 16 (finalWorld sampleDriver) :=
  ⟨Reachable.idle 16 (Reachable.entry sample_main),
    pause_toggled_twice sampleDriver _ 10 20 11 21
      (Reachable.idle 16 (Reachable.entry sample_main))⟩

/-! ## The draw call -/

theorem M_SQRT3_sq : |M_SQRT3 ^ 2 - 3| < 1 / 10 ^ 15 := by
  norm_num [M_SQRT3, abs_lt]

theorem make_shader_frame (d : Driver) (kind : GLenum) (filename : String) (e : Env) :
    (make_shader d kind filename e).2.gl.buffers = e.gl.buffers ∧
      (make_shader d kind filename e).2.gl.programs = e.gl.programs := by
  unfold make_shader
  cases d.file_contents filename with
  | none => simp
  | some source => cases hc : d.compile_status kind source <;> simp [hc]

theorem make_program_frame (d : Driver) (vertex_shader fragment_shader : GLuint) (e : Env) :
    (make_program d vertex_shader fragment_shader e).2.gl.buffers = e.gl.buffers := by
  unfold make_program
  simp only [glCreateProgram, glAttachShader, glLinkProgram, glGetProgramiv, Env.call,
    List.lookup, beq_self_eq_true]
  split <;> simp

theorem make_shader_calls (d : Driver) (kind : GLenum) (filename : String) (e : Env) (c : Call)
    (h : c ∈ e.calls) : c ∈ (make_shader d kind filename e).2.calls := by
  unfold make_shader
  cases d.file_contents filename with
  | none => simpa using h
  | some source => cases hc : d.compile_status kind source <;> simp [hc, h]

theorem make_program_calls (d : Driver) (vertex_shader fragment_shader : GLuint) (e : Env)
    (c : Call) (h : c ∈ e.calls) :
    c ∈ (make_program d vertex_shader fragment_shader e).2.calls := by
  unfold make_program
  simp only [glCreateProgram, glAttachShader, glLinkProgram, glGetProgramiv, Env.call,
    List.lookup, beq_self_eq_true]
  split <;> simp [h]

theorem lookup_first {β : Type} (n : Nat) (a : β) (l : List (Nat × β)) :
    List.lookup n ((n, a) :: l) = some a := by
  simp [List.lookup]

theorem lookup_second {β : Type} (n : Nat) (a b : β) (l : List (Nat × β)) :
    List.lookup n ((n + 1, a) :: (n, b) :: l) = some b := by
  have h : (n == n + 1) = false := by simp
  simp [List.lookup, h]

theorem buffers_made_buffers (e : Env) :
    (buffers_made e).gl.buffers =
      (e.gl.buffer_names + 1 + 1, .ushorts [0, 1, 2, 3, 4, 5, 6]) ::
        (e.gl.buffer_names + 1, .floats g_vertex_buffer_data) :: e.gl.buffers := by
  simp [buffers_made, N_VERTEX, sizeof_GLfloat, sizeof_GLushort, take_vertex_data,
    take_element_data]

theorem buffers_made_calls (e : Env) :
    (buffers_made e).calls = e.calls ++
      [.glGenBuffers (e.gl.buffer_names + 1),
        .glBindBuffer .GL_ARRAY_BUFFER (e.gl.buffer_names + 1),
        .glBufferData .GL_ARRAY_BUFFER 56,
        .glGenBuffers (e.gl.buffer_names + 1 + 1),
        .glBindBuffer .GL_ELEMENT_ARRAY_BUFFER (e.gl.buffer_names + 1 + 1),
        .glBufferData .GL_ELEMENT_ARRAY_BUFFER 14] := by
  simp [buffers_made, N_VERTEX, sizeof_GLfloat, sizeof_GLushort]

theorem make_resources_buffers (d : Driver) (w : World) :
    (make_resources d w).2.g_resources.vertex_buffer = w.env.gl.buffer_names + 1 ∧
      (make_resources d w).2.g_resources.element_buffer = w.env.gl.buffer_names + 1 + 1 ∧
      (make_resources d w).2.env.gl.buffers = (buffers_made w.env).gl.buffers ∧
      ∀ c ∈ (buffers_made w.env).calls, c ∈ (make_resources d w).2.env.calls := by
  have hs := make_shader_frame d
  have hp := make_program_frame d
  have hsc := make_shader_calls d
  have hpc := make_program_calls d
  unfold make_resources
  simp only []
  split_ifs
  · refine ⟨by simp, by simp, by simp [hs, buffers_made], ?_⟩
    intro c hc
    exact hsc _ _ _ c hc
  · refine ⟨by simp, by simp, by simp [hs, buffers_made], ?_⟩
    intro c hc
    exact hsc _ _ _ c (hsc _ _ _ c hc)
  · refine ⟨by simp, by simp, by simp [hs, hp, buffers_made], ?_⟩
    intro c hc
    exact hpc _ _ _ c (hsc _ _ _ c (hsc _ _ _ c hc))
  · refine ⟨by simp, by simp, by simp [hs, hp, buffers_made], ?_⟩
    intro c hc
    simp only [glGetUniformLocation, glGetAttribLocation, Env.call, List.mem_append]
    exact Or.inl (Or.inl (hpc _ _ _ c (hsc _ _ _ c (hsc _ _ _ c hc))))

/-- C10, as the code has it: on invocation, whatever becomes of the shaders, the
loader fills two distinct buffers: the vertex buffer with all 14 floats of the
7 coordinate pairs (56 bytes), and the element buffer with the first 7 entries
0,1,2,3,4,5,6 of the 8-entry index list (14 bytes). -/
theorem make_resources_uploads (d : Driver) (w : World) :
    (make_resources d w).2.env.gl.buffers.lookup (make_resources d w).2.g_resources.vertex_buffer =
        some (.floats g_vertex_buffer_data) ∧
      g_vertex_buffer_data.length = 2 * N_VERTEX ∧
      (make_resources d w).2.env.gl.buffers.lookup
          (make_resources d w).2.g_resources.element_buffer =
        some (.ushorts [0, 1, 2, 3, 4, 5, 6]) ∧
      g_element_buffer_data = [0, 1, 2, 3, 4, 5, 6] ++ [7] ∧
      (make_resources d w).2.g_resources.vertex_buffer ≠
        (make_resources d w).2.g_resources.element_buffer ∧
      Call.glBufferData .GL_ARRAY_BUFFER 56 ∈ (make_resources d w).2.env.calls ∧
      Call.glBufferData .GL_ELEMENT_ARRAY_BUFFER 14 ∈ (make_resources d w).2.env.calls := by
  obtain ⟨h1, h2, h3, h4⟩ := make_resources_buffers d w
  rw [h1, h2, h3, buffers_made_buffers]
  refine ⟨lookup_second _ _ _ _, rfl, lookup_first _ _ _, rfl, by simp, h4 _ ?_, h4 _ ?_⟩ <;>
    simp [buffers_made_calls]

/-- C10 as stated fails: the element buffer does not hold all 8 entries of the
index list. -/
theorem element_buffer_lacks_last_entry :
    (make_resources sampleDriver World.init).2.env.gl.buffers.lookup
        (make_resources sampleDriver World.init).2.g_resources.element_buffer =
      some (.ushorts [0, 1, 2, 3, 4, 5, 6]) ∧
    (make_resources sampleDriver World.init).2.env.gl.buffers.lookup
        (make_resources sampleDriver World.init).2.g_resources.element_buffer ≠
      some (.ushorts g_element_buffer_data) := by
  decide

/-! ## Failing to load -/

theorem make_shader_no_main_loop (d : Driver) (kind : GLenum) (filename : String) (e : Env)
    (h : Call.glutMainLoop ∉ e.calls) :
    Call.glutMainLoop ∉ (make_shader d kind filename e).2.calls := by
  unfold make_shader
  cases d.file_contents filename with
  | none => simpa using h
  | some source => cases hc : d.compile_status kind source <;> simp [hc, h]

theorem make_program_no_main_loop (d : Driver) (vertex_shader fragment_shader : GLuint)
    (e : Env) (h : Call.glutMainLoop ∉ e.calls) :
    Call.glutMainLoop ∉ (make_program d vertex_shader fragment_shader e).2.calls := by
  unfold make_program
  simp only [glCreateProgram, glAttachShader, glLinkProgram, glGetProgramiv, Env.call,
    List.lookup, beq_self_eq_true]
  split <;> simp [h]

theorem make_resources_no_main_loop (d : Driver) (w : World)
    (h : Call.glutMainLoop ∉ w.env.calls) :
    Call.glutMainLoop ∉ (make_resources d w).2.env.calls := by
  have hb : Call.glutMainLoop ∉ (buffers_made w.env).calls := by
    simp [buffers_made_calls, h]
  have hs := make_shader_no_main_loop d
  have hp := make_program_no_main_loop d
  unfold make_resources
  simp only []
  split_ifs
  · exact hs _ _ _ hb
  · exact hs _ _ _ (hs _ _ _ hb)
  · exact hp _ _ _ (hs _ _ _ (hs _ _ _ hb))
  · simp only [glGetUniformLocation, glGetAttribLocation, Env.call, List.mem_append, not_or]
    exact ⟨⟨hp _ _ _ (hs _ _ _ (hs _ _ _ hb)), by simp⟩, by simp⟩

theorem main_exits_of_not_loaded (d : Driver)
    (h : d.GLEW_VERSION_2_0 = false ∨ (make_resources d (main_setup d World.init)).1 = 0) :
    ∃ w1, main d = .exited 1 w1 ∧ Call.glutMainLoop ∉ w1.env.calls := by
  have hb : Call.glutMainLoop ∉ (main_setup d World.init).env.calls := by
    simp [main_setup, World.init]
  unfold main
  split_ifs with h1 h2
  · exact ⟨_, rfl, by simpa using hb⟩
  · exact ⟨_, rfl, by simpa using make_resources_no_main_loop d _ hb⟩
  · rcases h with h | h <;> contradiction

/-- C7: when `ah.f.glsl` cannot be read while `ah.v.glsl` is read and compiles,
`make_resources` returns 0 having created the vertex buffer (filled with the
vertex data) and the vertex shader (compiled); it creates no program and makes
no call that attaches or links, and `main` exits with status 1. -/
theorem missing_fragment_shader (d : Driver) (w : World) (source : String)
    (hv : d.file_contents "ah.v.glsl" = some source)
    (hc : d.compile_status .GL_VERTEX_SHADER source = true)
    (hf : d.file_contents "ah.f.glsl" = none) :
    (make_resources d w).1 = 0 ∧
    (make_resources d w).2.g_resources.vertex_buffer ≠ 0 ∧
    (make_resources d w).2.env.gl.buffers.lookup (make_resources d w).2.g_resources.vertex_buffer
      = some (.floats g_vertex_buffer_data) ∧
    (make_resources d w).2.g_resources.vertex_shader ≠ 0 ∧
    (make_resources d w).2.env.gl.shaders.lookup (make_resources d w).2.g_resources.vertex_shader
      = some ⟨.GL_VERTEX_SHADER, source, true⟩ ∧
    (make_resources d w).2.env.gl.programs = w.env.gl.programs ∧
    (∃ new, (make_resources d w).2.env.calls = w.env.calls ++ new ∧
      ∀ c ∈ new, c.isLink = false) ∧
    ∃ w1, main d = .exited 1 w1 := by
  have hl := lookup_second (w.env.gl.buffer_names + 1) (ClientArray.ushorts [0, 1, 2, 3, 4, 5, 6])
    (ClientArray.floats g_vertex_buffer_data) w.env.gl.buffers
  refine ⟨?_, ?_, ?_, ?_, ?_, ?_, ?_, ?_⟩
  · simp [make_resources, make_shader, hv, hc, hf]
  · simp [make_resources, make_shader, hv, hc, hf]
  · simpa [make_resources, make_shader, hv, hc, hf, N_VERTEX, sizeof_GLfloat, sizeof_GLushort,
      take_vertex_data, take_element_data] using hl
  · simp [make_resources, make_shader, hv, hc, hf]
  · simp [make_resources, make_shader, hv, hc, hf, List.lookup]
  · simp [make_resources, make_shader, hv, hc, hf, List.lookup]
  · simp [make_resources, make_shader, hv, hc, hf, List.lookup, Call.isLink]
  · obtain ⟨w1, h1, _⟩ := main_exits_of_not_loaded d
      (Or.inr (by simp [make_resources, make_shader, hv, hc, hf]))
    exact ⟨w1, h1⟩

theorem missing_fragment_shader_witness :
    noFragmentDriver.file_contents "ah.v.glsl" = some "vertex text" ∧
      noFragmentDriver.compile_status .GL_VERTEX_SHADER "vertex text" = true ∧
      noFragmentDriver.file_contents "ah.f.glsl" = none ∧
      (make_resources noFragmentDriver World.init).1 = 0 ∧
      (make_resources noFragmentDriver World.init).2.g_resources.vertex_buffer ≠ 0 :=
  ⟨rfl, rfl, rfl,
    (missing_fragment_shader noFragmentDriver World.init "vertex text" rfl rfl rfl).1,
    (missing_fragment_shader noFragmentDriver World.init "vertex text" rfl rfl rfl).2.1⟩

theorem beq_succ_self (n : Nat) : (n == n + 1) = false := by simp

theorem make_resources_fails_iff (d : Driver) (w : World) :
    (make_resources d w).1 = 0 ↔ spec_load_fails d := by
  unfold spec_load_fails
  cases hv : d.file_contents "ah.v.glsl" with
  | none => simp [make_resources, make_shader, hv]
  | some sv =>
    cases hcv : d.compile_status .GL_VERTEX_SHADER sv with
    | false => simp [make_resources, make_shader, hv, hcv]
    | true =>
      cases hf : d.file_contents "ah.f.glsl" with
      | none => simp [make_resources, make_shader, hv, hcv, hf]
      | some sf =>
        cases hcf : d.compile_status .GL_FRAGMENT_SHADER sf with
        | false => simp [make_resources, make_shader, hv, hcv, hf, hcf]
        | true =>
          cases hl : d.link_status [(.GL_VERTEX_SHADER, sv), (.GL_FRAGMENT_SHADER, sf)] <;>
            simp [make_resources, make_shader, make_program, hv, hcv, hf, hcf, hl,
              GLState.stagesOf, List.lookup, beq_succ_self]

theorem main_runs_of_loaded (d : Driver) (hg : d.GLEW_VERSION_2_0 = true)
    (hr : (make_resources d (main_setup d World.init)).1 ≠ 0) :
    ∃ w1, main d = .running w1 ∧ Call.glutMainLoop ∈ w1.env.calls := by
  unfold main
  split_ifs with h1
  · simp [hg] at h1
  · exact ⟨_, rfl, by simp⟩

/-- C8: `make_resources` returns 0 exactly when a shader source file is
unreadable, a shader fails to compile, or the program fails to link; if
`GLEW_VERSION_2_0` is not set or the loader fails in any of these ways, `main`
exits with status 1 without having called `glutMainLoop`; otherwise it enters
the main loop. -/
theorem main_exits_1_on_failure (d : Driver) :
    (∀ w, (make_resources d w).1 = 0 ↔ spec_load_fails d) ∧
      ((d.GLEW_VERSION_2_0 = false ∨ spec_load_fails d) →
        ∃ w1, main d = .exited 1 w1 ∧ Call.glutMainLoop ∉ w1.env.calls) ∧
      (¬ (d.GLEW_VERSION_2_0 = false ∨ spec_load_fails d) →
        ∃ w1, main d = .running w1 ∧ Call.glutMainLoop ∈ w1.env.calls) := by
  refine ⟨fun w => make_resources_fails_iff d w, ?_, ?_⟩
  · intro h
    apply main_exits_of_not_loaded
    rcases h with h | h
    · exact Or.inl h
    · exact Or.inr ((make_resources_fails_iff d _).2 h)
  · intro h
    rw [not_or] at h
    apply main_runs_of_loaded
    · simpa using h.1
    · exact fun h0 => h.2 ((make_resources_fails_iff d _).1 h0)

/-! ## Validity of the handles when rendering -/

theorem objectsValid_of_loaded (d : Driver) (w : World) (h : Loaded d w) : ObjectsValid d w := by
  obtain ⟨_, h2, h3, h4, h5, h6, h7, ⟨sv, sf, h8, h9, h10, h11, h12⟩, _⟩ := h
  constructor
  · simp [h2, h7, List.lookup]
  · simp [h3, h7, List.lookup]
  · simp [h4, h8]
  · simp [h5, h9]
  · simp [h4, h5, h6, h10, h11, h12]

/-- C9 as stated fails: with shaders that link but do not declare `fade_factor`
or `position`, `main` enters the main loop, the render callback runs and draws,
and the two locations are -1. -/
theorem render_with_unresolved_locations :
    Reachable noLocationDriver (finalWorld noLocationDriver) ∧
      ¬ spec_fully_populated (finalWorld noLocationDriver) ∧
      (finalWorld noLocationDriver).g_resources.uniforms_fade_factor = -1 ∧
      (finalWorld noLocationDriver).g_resources.attributes_position = -1 ∧
      (render (finalWorld noLocationDriver)).env.gl.draws.length = 1 := by
  refine ⟨Reachable.entry rfl, ?_, by decide, by decide, by decide⟩
  unfold spec_fully_populated
  decide

/-- C9, as the code has it: in every execution either `main` has exited with
status 1 and no callback ever runs, or `main` entered the main loop and in
every state in which a callback (so also the render callback) runs, both buffer
handles, both shader handles and the program handle are valid, and the two
locations are what the driver resolved for `fade_factor` and `position`. -/
theorem render_state_objects_valid (d : Driver) :
    (∃ w0, main d = .exited 1 w0 ∧ ∀ w, ¬ Reachable d w) ∨
      (∃ w0, main d = .running w0 ∧ ∀ w, Reachable d w → ObjectsValid d w) := by
  by_cases h : d.GLEW_VERSION_2_0 = false ∨ (make_resources d (main_setup d World.init)).1 = 0
  · left
    obtain ⟨w0, h0, _⟩ := main_exits_of_not_loaded d h
    refine ⟨w0, h0, fun w hw => ?_⟩
    obtain ⟨w1, h1⟩ := main_running_of_reachable d w hw
    rw [h0] at h1
    cases h1
  · right
    rw [not_or] at h
    obtain ⟨w0, h0, _⟩ := main_runs_of_loaded d (by simpa using h.1) h.2
    exact ⟨w0, h0, fun w hw => objectsValid_of_loaded d w (loaded_of_reachable d w hw)⟩

/-! ## The frames-per-second readout -/

end AdequateHexagon
